import Mathlib

/-!
Verification of the district-to-era data join and slideshow sequencing logic
of `history_gif.py` (a Streamlit slideshow of historical U.S. congressional
district maps).  The Python source is shallowly embedded: the static catalog
becomes a list of rows, the Streamlit `st.cache_data` memoization of
`get_historical_fact` becomes explicit state passing over an association
list, the external OpenAI call becomes an oracle indexed by call number, and
`display_slideshow_auto` becomes a structural recursion over the list of
distinct district identifiers in first-occurrence order (the semantics of
`pandas.unique`).
-/

set_option maxRecDepth 4096

set_option maxHeartbeats 1000000

/-- A row of the static catalog built by `create_mapping_dataframe`:
district identifier (`district_n`), congressional-session ordinal label
(`order`), and the session date range as a single string (`date_range`). -/
structure CatalogRow where
  district_n : String
  order : String
  date_range : String
deriving DecidableEq, Repr

/-- The static district catalog, embedding the `pd.DataFrame` literal of
`create_mapping_dataframe` in `history_gif.py` row by row. -/
def create_mapping_dataframe : List CatalogRow :=
  [ ⟨"001", "1st", "March 4, 1789 to March 3, 1791"⟩,
    ⟨"002", "2nd", "March 4, 1791 to March 2, 1793"⟩,
    ⟨"003", "3rd", "March 4, 1793 to March 3, 1795"⟩,
    ⟨"004", "4th", "June 8, 1795 to March 3, 1797"⟩,
    ⟨"005", "5th", "March 4, 1797 to March 3, 1799"⟩,
    ⟨"006", "6th", "December 2, 1799 to March 3, 1801"⟩,
    ⟨"007", "7th", "March 4, 1801 to March 3, 1803"⟩,
    ⟨"008", "8th", "October 17, 1803 to March 3, 1805"⟩,
    ⟨"009", "9th", "December 2, 1805 to March 3, 1807"⟩,
    ⟨"010", "10th", "October 26, 1807 to March 3, 1809"⟩,
    ⟨"011", "11th", "March 4, 1809 to March 3, 1811"⟩,
    ⟨"012", "12th", "November 4, 1811 to March 3, 1813"⟩,
    ⟨"013", "13th", "May 24, 1813 to March 3, 1815"⟩,
    ⟨"014", "14th", "December 4, 1815 to March 3, 1817"⟩,
    ⟨"015", "15th", "March 4, 1817 to March 3, 1819"⟩,
    ⟨"016", "16th", "December 6, 1819 to March 3, 1821"⟩,
    ⟨"017", "17th", "December 3, 1821 to March 3, 1823"⟩,
    ⟨"018", "18th", "December 1, 1823 to March 3, 1825"⟩,
    ⟨"019", "19th", "March 4, 1825 to March 3, 1827"⟩,
    ⟨"020", "20th", "December 3, 1827 to March 3, 1829"⟩,
    ⟨"021", "21st", "March 4, 1829 to March 3, 1831"⟩,
    ⟨"022", "22nd", "December 5, 1831 to March 2, 1833"⟩,
    ⟨"023", "23rd", "December 2, 1833 to March 3, 1835"⟩,
    ⟨"024", "24th", "December 7, 1835 to March 3, 1837"⟩,
    ⟨"025", "25th", "March 4, 1837 to March 3, 1839"⟩ ]

/-- The 25 district identifiers in catalog order. -/
def catalogIds : List String :=
  create_mapping_dataframe.map (·.district_n)

/-- Whether the first list leads (is an initial segment of) the second. -/
def sepLeads : List Char → List Char → Bool
  | [], _ => true
  | _ :: _, [] => false
  | p :: ps, c :: cs => p == c && sepLeads ps cs

/-- Split a character list on a non-empty separator, leftmost-first and
non-overlapping, like Python `str.split(sep)`.  The first argument is fuel
(at least the length of the list), making the recursion structural. -/
def splitChars (sep : List Char) : Nat → List Char → List Char → List (List Char)
  | 0, acc, rest => [acc.reverse ++ rest]
  | _ + 1, acc, [] => [acc.reverse]
  | fuel + 1, acc, c :: cs =>
    if sepLeads sep (c :: cs) then
      acc.reverse :: splitChars sep fuel [] ((c :: cs).drop sep.length)
    else
      splitChars sep fuel (c :: acc) cs

/-- String splitting on a separator, the semantics of Python `str.split` and
of the pandas `.str.split` used in `merge_data`. -/
def strSplitOn (s sep : String) : List String :=
  if sep = "" then [s]
  else (splitChars sep.data s.data.length [] s.data).map String.mk

/-- Decimal value of a digit character. -/
def digitVal (c : Char) : Option Nat :=
  if c.isDigit then some (c.toNat - 48) else none

/-- Read a nonempty all-digit character list as a natural number. -/
def charsToNatGo : Nat → List Char → Option Nat
  | acc, [] => some acc
  | acc, c :: cs =>
    match digitVal c with
    | some d => charsToNatGo (10 * acc + d) cs
    | none => none

/-- Parse a decimal natural number from a string, `none` on anything else. -/
def strToNat? (s : String) : Option Nat :=
  match s.data with
  | [] => none
  | l => charsToNatGo 0 l

/-- Numeric month for an English month name (0 for an unknown name). -/
def monthNum (m : String) : Nat :=
  if m = "January" then 1
  else if m = "February" then 2
  else if m = "March" then 3
  else if m = "April" then 4
  else if m = "May" then 5
  else if m = "June" then 6
  else if m = "July" then 7
  else if m = "August" then 8
  else if m = "September" then 9
  else if m = "October" then 10
  else if m = "November" then 11
  else if m = "December" then 12
  else 0

/-- A calendar date as (year, month, day). -/
abbrev Date := Nat × Nat × Nat

/-- Parse a date string of the form "March 4, 1789" into (year, month, day). -/
def parseDate (s : String) : Option Date :=
  match strSplitOn s " " with
  | [mon, dayComma, yr] =>
    match strToNat? (String.mk dayComma.data.dropLast), strToNat? yr with
    | some d, some y =>
      let m := monthNum mon
      if m = 0 then none else some (y, m, d)
    | _, _ => none
  | _ => none

/-- Strict chronological order on (year, month, day) triples. -/
def dateLt (a b : Date) : Bool :=
  a.1 < b.1 ∨ (a.1 = b.1 ∧ (a.2.1 < b.2.1 ∨ (a.2.1 = b.2.1 ∧ a.2.2 < b.2.2)))

/-- Parsed (start, end) dates of a catalog row, obtained by splitting its
`date_range` on " to " exactly as `merge_data` does. -/
def rowDates (r : CatalogRow) : Option (Date × Date) :=
  match strSplitOn r.date_range " to " with
  | [a, b] =>
    match parseDate a, parseDate b with
    | some x, some y => some (x, y)
    | _, _ => none
  | _ => none

/-- A single catalog row has a well-formed range: both dates parse and the
start date strictly precedes the end date. -/
def rangeOk (r : CatalogRow) : Bool :=
  match rowDates r with
  | some (a, b) => dateLt a b
  | none => false

/-- Consecutive catalog rows are disjoint and ordered: the first row's end
date strictly precedes the second row's start date. -/
def beforeOk (r1 r2 : CatalogRow) : Bool :=
  match rowDates r1, rowDates r2 with
  | some (_, e1), some (s2, _) => dateLt e1 s2
  | _, _ => false

/-- Every row of the list has a well-formed range and each row's end date
precedes the next row's start date. -/
def chronOk : List CatalogRow → Bool
  | [] => true
  | [r] => rangeOk r
  | r1 :: r2 :: rest => rangeOk r1 && beforeOk r1 r2 && chronOk (r2 :: rest)

/-- Whether `pat` occurs as a substring of `s` (detected, as pandas string
splitting would, by `splitOn` producing more than one part). -/
def occursIn (pat s : String) : Bool :=
  (strSplitOn s pat).length ≥ 2

/-- First row of the catalog, used as a concrete instance. -/
def row001 : CatalogRow :=
  ⟨"001", "1st", "March 4, 1789 to March 3, 1791"⟩

/-!
FactProvider: `get_historical_fact` is decorated with `@st.cache_data`, so
Streamlit memoizes it on its full argument tuple
`(district_n, start_date, end_date, refresh_count)`.  We embed the memo
table and the log of external OpenAI calls as explicit state, and the
OpenAI chat-completion endpoint as an oracle mapping the index of the
external call to either a response content string or an error.
-/

/-- Memoization key of `get_historical_fact`: its full argument tuple. -/
structure FactKey where
  district_n : String
  start_date : Option String
  end_date : Option String
  refresh_count : Nat
deriving DecidableEq, Repr

/-- Lookup in the memo table (association list). -/
def cacheLookup (c : List (FactKey × String)) (k : FactKey) : Option String :=
  match c with
  | [] => none
  | (k2, v) :: rest => if k2 = k then some v else cacheLookup rest k

/-- State threaded through fact fetches: the memo table, the log of keys for
which an external OpenAI call was issued, and the diagnostics shown with
`st.error`. -/
structure FactCacheState where
  cache : List (FactKey × String)
  externalCalls : List FactKey
  diagnostics : List String
deriving DecidableEq, Repr

/-- The empty state: fresh process, nothing cached. -/
def initState : FactCacheState := ⟨[], [], []⟩

/-- The external text service: the n-th external call either returns the
response content string or fails (exception, timeout, or a payload on which
`response.choices[0].message.content` raises). -/
def Oracle : Type := Nat → Except String String

/-- The placeholder fact substituted on an external-service failure. -/
def placeholderFact : String := "Historical fact not available."

/-- Diagnostic message shown by `st.error` on an external-service failure. -/
def errorDiag (k : FactKey) (e : String) : String :=
  "Error fetching data from OpenAI for District " ++ k.district_n ++ ": " ++ e

/-- Embedding of `get_historical_fact` under `@st.cache_data`: on a memo
hit, return the cached string with no external call; on a miss, issue one
external call; on success the fact is the stripped response content, on
failure it is `placeholderFact` and an `st.error` diagnostic is recorded;
either way the result is memoized under the full key. -/
def get_historical_fact (oracle : Oracle) (s : FactCacheState) (k : FactKey) :
    String × FactCacheState :=
  match cacheLookup s.cache k with
  | some fact => (fact, s)
  | none =>
    match oracle s.externalCalls.length with
    | .ok content =>
      let fact := content.trim
      (fact, ⟨(k, fact) :: s.cache, s.externalCalls ++ [k], s.diagnostics⟩)
    | .error e =>
      (placeholderFact,
       ⟨(k, placeholderFact) :: s.cache, s.externalCalls ++ [k],
        s.diagnostics ++ [errorDiag k e]⟩)

/-- Embedding of the rerun-animation button of `main`: it increments the
session's refresh counter, and the new counter value enters the memo key of
every subsequent `get_historical_fact` call. -/
def rerun_animation (refresh_count : Nat) : Nat := refresh_count + 1

/-!
SlideRenderer: `plot_district` and the geometry values it accepts.  A
shapely geometry is a polygon or a multi-polygon; the `geometries`
parameter may be a Python list, a single shapely geometry, a GeoSeries, or
anything else (the unrecognized case, in which the function returns the
freshly created empty figure before plotting).
-/

/-- A shapely geometry: a polygon (its vertex list) or a multi-polygon. -/
inductive Geom where
  | polygon (vertices : List (Int × Int))
  | multiPolygon (polys : List (List (Int × Int)))
deriving DecidableEq, Repr

/-- The possible runtime types of the `geometries` argument of
`plot_district`: a list, a single shapely geometry, a GeoSeries, or an
unrecognized value. -/
inductive GeomInput where
  | glist (gs : List Geom)
  | gsingle (g : Geom)
  | gseries (gs : List Geom)
  | unrecognized
deriving DecidableEq, Repr

/-- The caption placed by `plt.figtext(0.5, 0.02, fact, wrap=True,
horizontalalignment="center", fontsize=12)`: position in percent of the
canvas, wrapping flag, alignment, font size. -/
structure Caption where
  text : String
  xPercent : Nat
  yPercent : Nat
  wrap : Bool
  ha : String
  fontsize : Nat
deriving DecidableEq, Repr

/-- The Matplotlib figure produced by `plot_district`: an 8x8 canvas with
the plotted geometries, their fill and edge colors, an optional title (text
and font size), whether the axes were turned off, and an optional caption. -/
structure Figure where
  widthIn : Nat
  heightIn : Nat
  drawn : List Geom
  fill : Option String
  edge : Option String
  title : Option (String × Nat)
  axisOff : Bool
  caption : Option Caption
deriving DecidableEq, Repr

/-- The caption `plot_district` attaches for a given fact. -/
def mkCaption (fact : String) : Caption :=
  ⟨fact, 50, 2, true, "center", 12⟩

/-- Embedding of `plot_district`: normalize the `geometries` argument to a
GeoSeries (a bare list is wrapped, a single polygon or multi-polygon
becomes a one-element series, a series is kept, anything else returns the
fresh empty figure), plot all geometries filled skyblue with black edges,
set the title to the ordinal followed by " Congressional Session", turn the
axes off, and place the fact as a word-wrapped centered caption near the
bottom of the canvas. -/
def plot_district (order : String) (geometries : GeomInput) (fact : String) :
    Figure :=
  let series? : Option (List Geom) :=
    match geometries with
    | .glist gs => some gs
    | .gsingle g => some [g]
    | .gseries gs => some gs
    | .unrecognized => none
  match series? with
  | none => ⟨8, 8, [], none, none, none, false, none⟩
  | some gs =>
    ⟨8, 8, gs, some "skyblue", some "black",
     some (order ++ " Congressional Session", 16), true, some (mkCaption fact)⟩

/-!
GeometryLoader and the merged data.  `load_and_combine_shapefiles` reads
one bulk shapefile whose rows carry a district identifier and a geometry;
`merge_data` left-joins those rows with the static catalog on `district_n`
and splits `date_range` into `start_date` and `end_date` (rows with no
catalog match keep NaN, embedded as `none`).
-/

/-- A row of the combined GeoDataFrame read from `unioned_districts.shp`. -/
structure GeoRow where
  district_n : String
  geometry : Geom
deriving DecidableEq, Repr

/-- A row of the merged GeoDataFrame produced by `merge_data`. -/
structure Row where
  district_n : String
  geometry : Geom
  order : Option String
  start_date : Option String
  end_date : Option String
deriving DecidableEq, Repr

/-- The merge of one shapefile row with the catalog: look the identifier
up in the catalog (identifiers there are unique) and split the matched
`date_range` on " to "; an unmatched row keeps NaN (`none`) columns. -/
def mergeRow (dates : List CatalogRow) (g : GeoRow) : Row :=
  match dates.find? (fun r => r.district_n = g.district_n) with
  | some c =>
    let parts := strSplitOn c.date_range " to "
    ⟨g.district_n, g.geometry, some c.order, parts[0]?, parts[1]?⟩
  | none => ⟨g.district_n, g.geometry, none, none, none⟩

/-- Embedding of `merge_data`: left-join the shapefile rows with the
catalog on `district_n`, then split `date_range` on " to " into
`start_date` and `end_date`. -/
def merge_data (combined : List GeoRow) (dates : List CatalogRow) :
    List Row :=
  combined.map (mergeRow dates)

/-- Resolving one district identifier against the combined geometry source:
the rows whose `district_n` matches, or `none` (NotFound) when there are
no such rows.  This is the per-district read contract realized by
`merged_gdf[merged_gdf["district_n"] == district_n]`. -/
def geometry_load (combined : List GeoRow) (d : String) :
    Option (List Geom) :=
  match (combined.filter (fun g => g.district_n = d)).map (·.geometry) with
  | [] => none
  | gs => some gs

/-!
SlideshowSequencer: `display_slideshow_auto` iterates the distinct district
identifiers of the merged frame in first-occurrence order (the semantics of
`pandas.unique`); for each it collects that district's geometries, takes
the ordinal and dates from the first row, fetches the fact, renders the
figure, displays it, and sleeps for the configured interval.
-/

/-- First-occurrence-order deduplication with an explicit seen list. -/
def uniqueFirstGo (seen : List String) : List String → List String
  | [] => []
  | x :: xs =>
    if x ∈ seen then uniqueFirstGo seen xs
    else x :: uniqueFirstGo (x :: seen) xs

/-- The semantics of `pandas.unique`: distinct values in order of first
appearance. -/
def uniqueFirst (l : List String) : List String := uniqueFirstGo [] l

/-- Lexicographic strict order on character lists (by code point). -/
def charListLt : List Char → List Char → Bool
  | [], [] => false
  | [], _ :: _ => true
  | _ :: _, [] => false
  | a :: as, b :: bs =>
    a.toNat < b.toNat || (a == b && charListLt as bs)

/-- Strict lexicographic order on strings, used to express "ascending
identifier order". -/
def strAsc (a b : String) : Bool := charListLt a.data b.data

/-- Whether a list of strings is strictly ascending. -/
def sortedAsc : List String → Bool
  | [] => true
  | [_] => true
  | a :: b :: rest => strAsc a b && sortedAsc (b :: rest)

/-- One render call of the sequencer: the district it was issued for, the
arguments handed to `plot_district`, and the figure displayed. -/
structure RenderCall where
  district : String
  order : Option String
  start_date : Option String
  end_date : Option String
  geoms : List Geom
  fact : String
  fig : Figure
deriving DecidableEq, Repr

/-- The body of the slideshow loop, run over a list of district
identifiers: filter the merged rows for the district, take the ordinal and
dates from the first row, fetch the fact (threading the cache state),
render, display, sleep once, and recurse.  Returns the render calls in
display order, the final cache state, and the number of sleeps. -/
def slideshowGo (oracle : Oracle) (merged : List Row) (rc : Nat) :
    List String → FactCacheState → List RenderCall × FactCacheState × Nat
  | [], s => ([], s, 0)
  | d :: ds, s =>
    let rows := merged.filter (fun row => row.district_n = d)
    let geoms := rows.map (·.geometry)
    let ord := rows.head?.bind (·.order)
    let sd := rows.head?.bind (·.start_date)
    let ed := rows.head?.bind (·.end_date)
    match get_historical_fact oracle s ⟨d, sd, ed, rc⟩ with
    | (fact, s2) =>
      match slideshowGo oracle merged rc ds s2 with
      | (rest, s3, n) =>
        (⟨d, ord, sd, ed, geoms, fact,
          plot_district (ord.getD "nan") (.glist geoms) fact⟩ :: rest,
         s3, n + 1)

/-- Embedding of `display_slideshow_auto`: iterate
`merged_gdf["district_n"].unique()` with the loop body above.  The
`interval` parameter only scales each sleep and is threaded for fidelity. -/
def display_slideshow_auto (oracle : Oracle) (merged : List Row)
    (interval : Nat) (rc : Nat) (s0 : FactCacheState) :
    List RenderCall × FactCacheState × Nat :=
  match slideshowGo oracle merged rc
    (uniqueFirst (merged.map (·.district_n))) s0 with
  | (calls, s, n) => (calls, s, interval * n)

/-- Claim C1: the static district catalog contains exactly 25 districts with
fixed-width identifiers "001" through "025" that are unique and contiguous,
whose ordinal labels are unique, and whose session date ranges, in catalog
(identifier) order, are strictly increasing and non-overlapping: each
district's end date precedes the next district's start date. -/
theorem catalog_invariants_C1 :
    create_mapping_dataframe.length = 25 ∧
    catalogIds =
      [ "001", "002", "003", "004", "005", "006", "007", "008", "009", "010",
        "011", "012", "013", "014", "015", "016", "017", "018", "019", "020",
        "021", "022", "023", "024", "025" ] ∧
    (create_mapping_dataframe.map (·.order)).Nodup ∧
    chronOk create_mapping_dataframe = true := by
  refine ⟨rfl, rfl, ?_, rfl⟩
  decide

/-- Claim C9: the catalog maps district identifier "001" to ordinal label
"1st" and to the date range "March 4, 1789" to "March 3, 1791". -/
theorem catalog_first_district_C9 :
    create_mapping_dataframe.find? (fun r => r.district_n = "001") =
      some ⟨"001", "1st", "March 4, 1789 to March 3, 1791"⟩ ∧
    strSplitOn "March 4, 1789 to March 3, 1791" " to " =
      ["March 4, 1789", "March 3, 1791"] := by
  exact ⟨rfl, by decide⟩

/-- Claim C10: for every row of the static catalog, splitting the
`date_range` string on " to " yields exactly two components, rejoining them
with " to " reconstructs the original string, and neither component itself
contains " to ". -/
theorem date_range_split_roundtrip_C10 :
    ∀ r ∈ create_mapping_dataframe,
      (strSplitOn r.date_range " to ").length = 2 ∧
      (strSplitOn r.date_range " to ").headD "" ++ " to " ++
        (strSplitOn r.date_range " to ").getLastD "" = r.date_range ∧
      occursIn " to " ((strSplitOn r.date_range " to ").headD "") = false ∧
      occursIn " to " ((strSplitOn r.date_range " to ").getLastD "") = false := by
  decide

/-- Witness for C10 at the catalog's first row. -/
theorem date_range_split_roundtrip_C10_witness :
    (strSplitOn row001.date_range " to ").length = 2 ∧
    (strSplitOn row001.date_range " to ").headD "" ++ " to " ++
      (strSplitOn row001.date_range " to ").getLastD "" = row001.date_range ∧
    occursIn " to " ((strSplitOn row001.date_range " to ").headD "") = false ∧
    occursIn " to " ((strSplitOn row001.date_range " to ").getLastD "") = false :=
  date_range_split_roundtrip_C10 row001 (by decide)

/-- A lookup misses when no cached entry has the looked-up key. -/
theorem cacheLookup_none_of_ne (c : List (FactKey × String)) (k : FactKey)
    (h : ∀ p ∈ c, p.1 ≠ k) : cacheLookup c k = none := by
  induction c with
  | nil => rfl
  | cons p rest ih =>
    obtain ⟨k2, v⟩ := p
    show (if k2 = k then some v else cacheLookup rest k) = none
    rw [if_neg (h (k2, v) (List.mem_cons_self _ rest))]
    exact ih fun q hq => h q (List.mem_cons_of_mem _ hq)

/-- One unfolding step of the sequencer loop, stated with projections
(definitionally equal to the match form by structure eta). -/
theorem slideshowGo_cons (oracle : Oracle) (merged : List Row) (rc : Nat)
    (d : String) (ds : List String) (s : FactCacheState) :
    slideshowGo oracle merged rc (d :: ds) s =
      ((⟨d,
          (merged.filter (fun row => row.district_n = d)).head?.bind
            (·.order),
          (merged.filter (fun row => row.district_n = d)).head?.bind
            (·.start_date),
          (merged.filter (fun row => row.district_n = d)).head?.bind
            (·.end_date),
          (merged.filter (fun row => row.district_n = d)).map
            (·.geometry),
          (get_historical_fact oracle s
            ⟨d,
             (merged.filter (fun row => row.district_n = d)).head?.bind
               (·.start_date),
             (merged.filter (fun row => row.district_n = d)).head?.bind
               (·.end_date), rc⟩).1,
          plot_district
            (((merged.filter
                (fun row => row.district_n = d)).head?.bind
              (·.order)).getD "nan")
            (.glist
              ((merged.filter (fun row => row.district_n = d)).map
                (·.geometry)))
            (get_historical_fact oracle s
              ⟨d,
               (merged.filter
                 (fun row => row.district_n = d)).head?.bind
                 (·.start_date),
               (merged.filter
                 (fun row => row.district_n = d)).head?.bind
                 (·.end_date), rc⟩).1⟩ :
          RenderCall) ::
        (slideshowGo oracle merged rc ds
          (get_historical_fact oracle s
            ⟨d,
             (merged.filter (fun row => row.district_n = d)).head?.bind
               (·.start_date),
             (merged.filter (fun row => row.district_n = d)).head?.bind
               (·.end_date), rc⟩).2).1,
       (slideshowGo oracle merged rc ds
          (get_historical_fact oracle s
            ⟨d,
             (merged.filter (fun row => row.district_n = d)).head?.bind
               (·.start_date),
             (merged.filter (fun row => row.district_n = d)).head?.bind
               (·.end_date), rc⟩).2).2.1,
       (slideshowGo oracle merged rc ds
          (get_historical_fact oracle s
            ⟨d,
             (merged.filter (fun row => row.district_n = d)).head?.bind
               (·.start_date),
             (merged.filter (fun row => row.district_n = d)).head?.bind
               (·.end_date), rc⟩).2).2.2 + 1) := rfl

/-- The sequencer issues exactly one render call per iterated district, in
iteration order. -/
theorem slideshowGo_map_district (oracle : Oracle) (merged : List Row)
    (rc : Nat) (ds : List String) (s : FactCacheState) :
    (slideshowGo oracle merged rc ds s).1.map (·.district) = ds := by
  induction ds generalizing s with
  | nil => rfl
  | cons d rest ih => rw [slideshowGo_cons]; simp only [List.map_cons, ih]

/-- The sequencer sleeps exactly once per iterated district. -/
theorem slideshowGo_sleep_count (oracle : Oracle) (merged : List Row)
    (rc : Nat) (ds : List String) (s : FactCacheState) :
    (slideshowGo oracle merged rc ds s).2.2 = ds.length := by
  induction ds generalizing s with
  | nil => rfl
  | cons d rest ih => rw [slideshowGo_cons]; simp only [List.length_cons, ih]

/-- The join of `merge_data` preserves the district identifier column. -/
theorem merge_data_map_district (combined : List GeoRow)
    (dates : List CatalogRow) :
    (merge_data combined dates).map (·.district_n) =
      combined.map (·.district_n) := by
  unfold merge_data
  rw [List.map_map]
  refine List.map_congr_left fun g _ => ?_
  simp only [Function.comp_apply]
  cases h : dates.find? (fun r => r.district_n = g.district_n) <;>
    simp [mergeRow, h]

/-- The identifier of a merged row is the shapefile row's identifier. -/
theorem mergeRow_district_n (dates : List CatalogRow) (g : GeoRow) :
    (mergeRow dates g).district_n = g.district_n := by
  unfold mergeRow
  cases dates.find? (fun r => r.district_n = g.district_n) <;> rfl

/-- The ordinal of a merged row comes from the catalog match. -/
theorem mergeRow_order (dates : List CatalogRow) (g : GeoRow) :
    (mergeRow dates g).order =
      (dates.find? (fun r => r.district_n = g.district_n)).map
        (·.order) := by
  unfold mergeRow
  cases dates.find? (fun r => r.district_n = g.district_n) <;> rfl

/-- The start date of a merged row is the first split component of the
matched catalog row's date range. -/
theorem mergeRow_start_date (dates : List CatalogRow) (g : GeoRow) :
    (mergeRow dates g).start_date =
      (dates.find? (fun r => r.district_n = g.district_n)).bind
        (fun c => (strSplitOn c.date_range " to ")[0]?) := by
  unfold mergeRow
  cases dates.find? (fun r => r.district_n = g.district_n) <;> rfl

/-- The end date of a merged row is the second split component of the
matched catalog row's date range. -/
theorem mergeRow_end_date (dates : List CatalogRow) (g : GeoRow) :
    (mergeRow dates g).end_date =
      (dates.find? (fun r => r.district_n = g.district_n)).bind
        (fun c => (strSplitOn c.date_range " to ")[1]?) := by
  unfold mergeRow
  cases dates.find? (fun r => r.district_n = g.district_n) <;> rfl

/-- Membership in the deduplicated list: present in the input and not
already seen. -/
theorem mem_uniqueFirstGo (x : String) :
    ∀ (l seen : List String),
      x ∈ uniqueFirstGo seen l ↔ x ∈ l ∧ x ∉ seen := by
  intro l
  induction l with
  | nil => intro seen; simp [uniqueFirstGo]
  | cons a as ih =>
    intro seen
    by_cases h : a ∈ seen
    · rw [uniqueFirstGo, if_pos h, ih seen]
      constructor
      · rintro ⟨hx, hns⟩
        exact ⟨List.mem_cons_of_mem _ hx, hns⟩
      · rintro ⟨hx, hns⟩
        rcases List.mem_cons.mp hx with rfl | hx2
        · exact absurd h hns
        · exact ⟨hx2, hns⟩
    · rw [uniqueFirstGo, if_neg h, List.mem_cons, ih (a :: seen)]
      constructor
      · rintro (rfl | ⟨hx, hns⟩)
        · exact ⟨List.mem_cons_self _ _, h⟩
        · refine ⟨List.mem_cons_of_mem _ hx, fun hxs => hns ?_⟩
          exact List.mem_cons_of_mem _ hxs
      · rintro ⟨hx, hns⟩
        rcases List.mem_cons.mp hx with rfl | hx2
        · exact Or.inl rfl
        · by_cases hxa : x = a
          · exact Or.inl hxa
          · refine Or.inr ⟨hx2, fun hxs => ?_⟩
            rcases List.mem_cons.mp hxs with rfl | hxs2
            · exact hxa rfl
            · exact hns hxs2

/-- Membership survives first-occurrence deduplication, and nothing new
appears. -/
theorem mem_uniqueFirst (x : String) (l : List String) :
    x ∈ uniqueFirst l ↔ x ∈ l := by
  rw [uniqueFirst, mem_uniqueFirstGo]
  simp

/-- The sequencer issues as many render calls as there are iterated
districts. -/
theorem slideshowGo_length (oracle : Oracle) (merged : List Row) (rc : Nat)
    (ds : List String) (s : FactCacheState) :
    (slideshowGo oracle merged rc ds s).1.length = ds.length := by
  have h := congrArg List.length
    (slideshowGo_map_district oracle merged rc ds s)
  rwa [List.length_map] at h

/-- The render calls of `display_slideshow_auto` are the render calls of
the loop run over the distinct district identifiers. -/
theorem display_fst (oracle : Oracle) (merged : List Row)
    (interval rc : Nat) (s0 : FactCacheState) :
    (display_slideshow_auto oracle merged interval rc s0).1 =
      (slideshowGo oracle merged rc
        (uniqueFirst (merged.map (·.district_n))) s0).1 := rfl

/-- The total pause of `display_slideshow_auto` is the interval times the
number of sleeps of the loop. -/
theorem display_sleeps (oracle : Oracle) (merged : List Row)
    (interval rc : Nat) (s0 : FactCacheState) :
    (display_slideshow_auto oracle merged interval rc s0).2.2 =
      interval *
        (slideshowGo oracle merged rc
          (uniqueFirst (merged.map (·.district_n))) s0).2.2 := rfl

/-- Each render call carries the ordinal and the date fields read off the
first merged row of its district. -/
theorem slideshowGo_map_fields (oracle : Oracle) (merged : List Row)
    (rc : Nat) (ds : List String) (s : FactCacheState) :
    (slideshowGo oracle merged rc ds s).1.map
      (fun c => (c.district, c.order, c.start_date, c.end_date)) =
    ds.map (fun d =>
      (d,
       (merged.filter (fun row => row.district_n = d)).head?.bind
         (·.order),
       (merged.filter (fun row => row.district_n = d)).head?.bind
         (·.start_date),
       (merged.filter (fun row => row.district_n = d)).head?.bind
         (·.end_date))) := by
  induction ds generalizing s with
  | nil => rfl
  | cons d rest ih => rw [slideshowGo_cons]; simp only [List.map_cons, ih]

/-- Filtering a duplicate-free list for one of its members keeps exactly
that member. -/
theorem filter_eq_singleton_of_nodup (ids : List String)
    (hnodup : ids.Nodup) (d : String) (hd : d ∈ ids) :
    ids.filter (fun x => x = d) = [d] := by
  induction ids with
  | nil => cases hd
  | cons a rest ih =>
    rcases List.nodup_cons.mp hnodup with ⟨hna, hrest⟩
    rcases List.mem_cons.mp hd with hda | hmem
    · subst hda
      rw [List.filter_cons_of_pos (by simp)]
      have hnil : rest.filter (fun x => x = d) = [] := by
        rw [List.filter_eq_nil_iff]
        intro x hx
        simp only [decide_eq_true_eq]
        intro hEq
        exact hna (hEq ▸ hx)
      rw [hnil]
    · have hne : ¬ (a = d) := fun hEq => hna (hEq ▸ hmem)
      rw [List.filter_cons_of_neg (by simpa using hne), ih hrest hmem]

/-- Mapping the identifier projection over the canonical one-row-per-id
geometry source recovers the identifier list. -/
theorem map_district_of_mk (g : String → Geom) (ids : List String) :
    (ids.map fun x => GeoRow.mk x (g x)).map (·.district_n) = ids := by
  induction ids with
  | nil => rfl
  | cons a rest ih => simp only [List.map_cons, ih]

/-- The shapefile identifier column survives the canonical construction:
one geometry row per identifier. -/
theorem canonical_merged_ids (g : String → Geom) (dates : List CatalogRow)
    (ids : List String) :
    (merge_data (ids.map fun x => GeoRow.mk x (g x)) dates).map
      (·.district_n) = ids := by
  rw [merge_data_map_district]
  exact map_district_of_mk g ids

/-- With one geometry row per duplicate-free identifier, the sequencer's
per-district filter finds exactly the one merged row of that district. -/
theorem canonical_filter (g : String → Geom) (dates : List CatalogRow)
    (ids : List String) (hnodup : ids.Nodup) (d : String) (hd : d ∈ ids) :
    (merge_data (ids.map fun x => GeoRow.mk x (g x)) dates).filter
        (fun row => row.district_n = d) =
      [mergeRow dates ⟨d, g d⟩] := by
  unfold merge_data
  rw [List.map_map, List.filter_map]
  have hpred : ids.filter
      ((fun row => decide (row.district_n = d)) ∘
        (mergeRow dates ∘ fun x => GeoRow.mk x (g x))) =
      ids.filter (fun x => x = d) := by
    refine List.filter_congr fun x _ => ?_
    simp [Function.comp, mergeRow_district_n]
  rw [hpred, filter_eq_singleton_of_nodup ids hnodup d hd]
  rfl

/-- Claim C2: two fact fetches with the identical key and no intervening
cache clear (the key not being cached beforehand) return byte-identical
fact strings and perform exactly one external text-service call, for that
key. -/
theorem fact_fetch_memoized_C2 (oracle : Oracle) (s0 : FactCacheState)
    (k : FactKey) (hmiss : cacheLookup s0.cache k = none) :
    (get_historical_fact oracle
        (get_historical_fact oracle s0 k).2 k).1 =
      (get_historical_fact oracle s0 k).1 ∧
    (get_historical_fact oracle
        (get_historical_fact oracle s0 k).2 k).2.externalCalls =
      s0.externalCalls ++ [k] := by
  unfold get_historical_fact
  rw [hmiss]
  cases h : oracle s0.externalCalls.length <;>
    simp [cacheLookup]

/-- Witness for C2: a concrete fresh fetch of district "001". -/
theorem fact_fetch_memoized_C2_witness :
    (get_historical_fact (fun _ => .ok "A fact.")
        (get_historical_fact (fun _ => .ok "A fact.") initState
          ⟨"001", some "March 4, 1789", some "March 3, 1791", 0⟩).2
        ⟨"001", some "March 4, 1789", some "March 3, 1791", 0⟩).1 =
      (get_historical_fact (fun _ => .ok "A fact.") initState
        ⟨"001", some "March 4, 1789", some "March 3, 1791", 0⟩).1 ∧
    (get_historical_fact (fun _ => .ok "A fact.")
        (get_historical_fact (fun _ => .ok "A fact.") initState
          ⟨"001", some "March 4, 1789", some "March 3, 1791", 0⟩).2
        ⟨"001", some "March 4, 1789", some "March 3, 1791", 0⟩).2.externalCalls =
      initState.externalCalls ++
        [⟨"001", some "March 4, 1789", some "March 3, 1791", 0⟩] :=
  fact_fetch_memoized_C2 (fun _ => .ok "A fact.") initState
    ⟨"001", some "March 4, 1789", some "March 3, 1791", 0⟩ rfl

/-- Claim C7: after the user-initiated rerun (cache clear), the next fetch
of any previously cached (district, start, end) key misses the memo table
and triggers a new external call; since this holds for every such key at
once, the invalidation is whole-cache, not per-entry. -/
theorem cache_clear_new_call_C7 (oracle : Oracle) (s : FactCacheState)
    (r : Nat) (hbound : ∀ p ∈ s.cache, p.1.refresh_count ≤ r)
    (d : String) (sd ed : Option String) (v : String)
    (_hcached : cacheLookup s.cache ⟨d, sd, ed, r⟩ = some v) :
    cacheLookup s.cache ⟨d, sd, ed, rerun_animation r⟩ = none ∧
    (get_historical_fact oracle s
        ⟨d, sd, ed, rerun_animation r⟩).2.externalCalls =
      s.externalCalls ++ [⟨d, sd, ed, rerun_animation r⟩] := by
  have hnone : cacheLookup s.cache ⟨d, sd, ed, rerun_animation r⟩ = none := by
    refine cacheLookup_none_of_ne _ _ fun p hp hne => ?_
    have := hbound p hp
    rw [hne] at this
    exact absurd this (by simp [rerun_animation])
  refine ⟨hnone, ?_⟩
  unfold get_historical_fact
  rw [hnone]
  cases oracle s.externalCalls.length <;> simp

/-- Witness for C7: one entry cached at refresh count 0, refetched after a
rerun, with a concrete oracle. -/
theorem cache_clear_new_call_C7_witness :
    cacheLookup
        [(⟨"001", some "March 4, 1789", some "March 3, 1791", 0⟩, "f")]
        ⟨"001", some "March 4, 1789", some "March 3, 1791",
          rerun_animation 0⟩ = none ∧
    (get_historical_fact (fun _ => .ok "A fact.")
        ⟨[(⟨"001", some "March 4, 1789", some "March 3, 1791", 0⟩, "f")],
          [], []⟩
        ⟨"001", some "March 4, 1789", some "March 3, 1791",
          rerun_animation 0⟩).2.externalCalls =
      (⟨[(⟨"001", some "March 4, 1789", some "March 3, 1791", 0⟩, "f")],
          [], []⟩ : FactCacheState).externalCalls ++
        [⟨"001", some "March 4, 1789", some "March 3, 1791",
          rerun_animation 0⟩] :=
  cache_clear_new_call_C7 (fun _ => .ok "A fact.")
    ⟨[(⟨"001", some "March 4, 1789", some "March 3, 1791", 0⟩, "f")], [], []⟩
    0 (by decide) "001" (some "March 4, 1789") (some "March 3, 1791") "f" rfl

/-- Claim C4: a district identifier absent from the geometry source
resolves to NotFound (`none`) rather than raising; the sequencer shows no
slide for it, every present district is still shown (in first-occurrence
order), and the number of sleeps equals the number of displayed slides, so
the missing district gets no pause. -/
theorem geometry_notfound_skip_C4 (combined : List GeoRow) (d : String)
    (hmissing : d ∉ combined.map (·.district_n)) (oracle : Oracle)
    (interval rc : Nat) (s0 : FactCacheState) :
    geometry_load combined d = none ∧
    (display_slideshow_auto oracle
        (merge_data combined create_mapping_dataframe) interval rc
        s0).1.map (·.district) =
      uniqueFirst (combined.map (·.district_n)) ∧
    d ∉ uniqueFirst (combined.map (·.district_n)) ∧
    (display_slideshow_auto oracle
        (merge_data combined create_mapping_dataframe) interval rc
        s0).2.2 =
      interval *
        (display_slideshow_auto oracle
          (merge_data combined create_mapping_dataframe) interval rc
          s0).1.length := by
  have hfilter : combined.filter (fun g => g.district_n = d) = [] := by
    rw [List.filter_eq_nil_iff]
    intro g hg
    simp only [decide_eq_true_eq]
    intro hEq
    exact hmissing (List.mem_map.mpr ⟨g, hg, hEq⟩)
  have hmapd :
      (slideshowGo oracle (merge_data combined create_mapping_dataframe) rc
        (uniqueFirst
          ((merge_data combined create_mapping_dataframe).map
            (·.district_n))) s0).1.map (·.district) =
      uniqueFirst (combined.map (·.district_n)) := by
    rw [slideshowGo_map_district, merge_data_map_district]
  refine ⟨?_, ?_, ?_, ?_⟩
  · unfold geometry_load
    rw [hfilter]
    rfl
  · exact hmapd
  · rw [mem_uniqueFirst]
    exact hmissing
  · show interval *
        (slideshowGo oracle (merge_data combined create_mapping_dataframe)
          rc
          (uniqueFirst
            ((merge_data combined create_mapping_dataframe).map
              (·.district_n))) s0).2.2 =
      interval *
        (slideshowGo oracle (merge_data combined create_mapping_dataframe)
          rc
          (uniqueFirst
            ((merge_data combined create_mapping_dataframe).map
              (·.district_n))) s0).1.length
    rw [slideshowGo_sleep_count, slideshowGo_length]

/-- Witness for C4: district "013" missing from a two-district geometry
source. -/
theorem geometry_notfound_skip_C4_witness :
    geometry_load
        [⟨"001", .polygon []⟩, ⟨"002", .polygon []⟩] "013" = none ∧
    (display_slideshow_auto (fun _ => .ok "A fact.")
        (merge_data [⟨"001", .polygon []⟩, ⟨"002", .polygon []⟩]
          create_mapping_dataframe) 1 0 initState).1.map (·.district) =
      uniqueFirst
        (([⟨"001", .polygon []⟩, ⟨"002", .polygon []⟩] :
          List GeoRow).map (·.district_n)) ∧
    "013" ∉ uniqueFirst
        (([⟨"001", .polygon []⟩, ⟨"002", .polygon []⟩] :
          List GeoRow).map (·.district_n)) ∧
    (display_slideshow_auto (fun _ => .ok "A fact.")
        (merge_data [⟨"001", .polygon []⟩, ⟨"002", .polygon []⟩]
          create_mapping_dataframe) 1 0 initState).2.2 =
      1 *
        (display_slideshow_auto (fun _ => .ok "A fact.")
          (merge_data [⟨"001", .polygon []⟩, ⟨"002", .polygon []⟩]
            create_mapping_dataframe) 1 0 initState).1.length :=
  geometry_notfound_skip_C4
    [⟨"001", .polygon []⟩, ⟨"002", .polygon []⟩] "013" (by decide)
    (fun _ => .ok "A fact.") 1 0 initState

/-- Claim C3: when the external text-service call fails, the fact fetch
returns the fixed placeholder fact and records the `st.error` diagnostic
(non-fatally), and with a failing service the sequencer still renders a
slide for every district — each captioned with the placeholder fact — and
proceeds through the whole catalog (in particular "010" is rendered and
"011" follows it). -/
theorem fact_failure_continue_C3 (oracle : Oracle) (s : FactCacheState)
    (k : FactKey) (e : String) (hmiss : cacheLookup s.cache k = none)
    (hfail : oracle s.externalCalls.length = .error e) :
    (get_historical_fact oracle s k).1 = placeholderFact ∧
    (get_historical_fact oracle s k).2.diagnostics =
      s.diagnostics ++ [errorDiag k e] ∧
    ∀ (g : String → Geom) (e2 : String) (interval rc : Nat),
      ((display_slideshow_auto (fun _ => .error e2)
          (merge_data (catalogIds.map fun d => GeoRow.mk d (g d))
            create_mapping_dataframe) interval rc initState).1.map
          fun c => (c.district, c.fact, c.fig.caption)) =
        create_mapping_dataframe.map fun r =>
          (r.district_n, placeholderFact,
           some (mkCaption placeholderFact)) := by
  refine ⟨?_, ?_, ?_⟩
  · unfold get_historical_fact
    rw [hmiss, hfail]
  · unfold get_historical_fact
    rw [hmiss, hfail]
  · intro g e2 interval rc
    rfl

/-- Witness for C3: a fresh fetch of district "010" against a service that
always fails. -/
theorem fact_failure_continue_C3_witness :
    (get_historical_fact (fun _ => .error "boom") initState
        ⟨"010", some "October 26, 1807", some "March 3, 1809", 0⟩).1 =
      placeholderFact ∧
    (get_historical_fact (fun _ => .error "boom") initState
        ⟨"010", some "October 26, 1807", some "March 3, 1809",
          0⟩).2.diagnostics =
      initState.diagnostics ++
        [errorDiag
          ⟨"010", some "October 26, 1807", some "March 3, 1809", 0⟩
          "boom"] ∧
    ∀ (g : String → Geom) (e2 : String) (interval rc : Nat),
      ((display_slideshow_auto (fun _ => .error e2)
          (merge_data (catalogIds.map fun d => GeoRow.mk d (g d))
            create_mapping_dataframe) interval rc initState).1.map
          fun c => (c.district, c.fact, c.fig.caption)) =
        create_mapping_dataframe.map fun r =>
          (r.district_n, placeholderFact,
           some (mkCaption placeholderFact)) :=
  fact_failure_continue_C3 (fun _ => .error "boom") initState
    ⟨"010", some "October 26, 1807", some "March 3, 1809", 0⟩ "boom"
    rfl rfl

/-- Counterexample to C5 as stated: with the geometry source listing
district "002" before "001", the sequencer presents "002" (ordinal "2nd")
first — the slide order follows the source's row order, not ascending
ordinal order. -/
theorem slideshow_order_C5_counterexample :
    ((display_slideshow_auto (fun _ => .error "down")
        (merge_data [⟨"002", .polygon []⟩, ⟨"001", .polygon []⟩]
          create_mapping_dataframe) 1 0 initState).1.map (·.district)) =
      ["002", "001"] ∧
    ((display_slideshow_auto (fun _ => .error "down")
        (merge_data [⟨"002", .polygon []⟩, ⟨"001", .polygon []⟩]
          create_mapping_dataframe) 1 0 initState).1.map (·.order)) =
      [some "2nd", some "1st"] ∧
    sortedAsc
        ((display_slideshow_auto (fun _ => .error "down")
          (merge_data [⟨"002", .polygon []⟩, ⟨"001", .polygon []⟩]
            create_mapping_dataframe) 1 0 initState).1.map
          (·.district)) = false := by
  exact ⟨rfl, rfl, rfl⟩

/-- Claim C5, amended: the sequencer presents one slide per distinct
district identifier in first-occurrence order of the merged rows; when the
geometry source lists the 25 catalog districts in ascending identifier
order, a single pass yields exactly 25 render calls in ascending ordinal
order, each receiving the ordinal and the date range that the catalog maps
to its identifier. -/
theorem slideshow_order_C5_amended (g : String → Geom) (oracle : Oracle)
    (interval rc : Nat) :
    ((display_slideshow_auto oracle
        (merge_data (catalogIds.map fun d => GeoRow.mk d (g d))
          create_mapping_dataframe) interval rc initState).1.map
        fun c => (c.district, c.order, c.start_date, c.end_date)) =
      (create_mapping_dataframe.map fun r =>
        (r.district_n, some r.order,
         (strSplitOn r.date_range " to ")[0]?,
         (strSplitOn r.date_range " to ")[1]?)) ∧
    (display_slideshow_auto oracle
        (merge_data (catalogIds.map fun d => GeoRow.mk d (g d))
          create_mapping_dataframe) interval rc initState).1.length = 25 ∧
    sortedAsc
        ((display_slideshow_auto oracle
          (merge_data (catalogIds.map fun d => GeoRow.mk d (g d))
            create_mapping_dataframe) interval rc initState).1.map
          (·.district)) = true ∧
    ∀ (merged : List Row) (s0 : FactCacheState),
      (display_slideshow_auto oracle merged interval rc s0).1.map
          (·.district) =
        uniqueFirst (merged.map (·.district_n)) := by
  have hids := canonical_merged_ids g create_mapping_dataframe catalogIds
  have huniq : uniqueFirst catalogIds = catalogIds := by decide
  have hnodup : catalogIds.Nodup := by decide
  have hfinal : catalogIds.map (fun d =>
      (d,
       (create_mapping_dataframe.find?
         (fun r => r.district_n = d)).map (·.order),
       (create_mapping_dataframe.find?
         (fun r => r.district_n = d)).bind
         (fun c => (strSplitOn c.date_range " to ")[0]?),
       (create_mapping_dataframe.find?
         (fun r => r.district_n = d)).bind
         (fun c => (strSplitOn c.date_range " to ")[1]?))) =
      (create_mapping_dataframe.map fun r =>
        (r.district_n, some r.order,
         (strSplitOn r.date_range " to ")[0]?,
         (strSplitOn r.date_range " to ")[1]?)) := by decide
  refine ⟨?_, ?_, ?_, ?_⟩
  · rw [display_fst, hids, huniq, slideshowGo_map_fields, ← hfinal]
    refine List.map_congr_left fun d hd => ?_
    rw [canonical_filter g create_mapping_dataframe catalogIds hnodup d hd]
    simp only [List.head?_cons, Option.some_bind]
    first
    | (rw [mergeRow_order, mergeRow_start_date, mergeRow_end_date]; rfl)
    | rw [mergeRow_order, mergeRow_start_date, mergeRow_end_date]
  · first
    | (rw [display_fst, hids, huniq, slideshowGo_length]; decide)
    | rw [display_fst, hids, huniq, slideshowGo_length]
  · first
    | (rw [display_fst, hids, huniq, slideshowGo_map_district]; decide)
    | rw [display_fst, hids, huniq, slideshowGo_map_district]
  · intro merged s0
    exact slideshowGo_map_district oracle merged rc
      (uniqueFirst (merged.map (·.district_n))) s0

/-- Claim C6: `plot_district` accepts zero, one, or many geometries
uniformly and never fails: an empty geometry list still yields the full
artifact (with nothing drawn), an unrecognized value yields the fresh
content-less figure, and a bare list, a single polygon, or a single
multi-polygon are normalized to the same series representation a true
multi-geometry gets. -/
theorem render_empty_safe_C6 (order fact : String) :
    plot_district order (.glist []) fact =
      ⟨8, 8, [], some "skyblue", some "black",
       some (order ++ " Congressional Session", 16), true,
       some (mkCaption fact)⟩ ∧
    plot_district order .unrecognized fact =
      ⟨8, 8, [], none, none, none, false, none⟩ ∧
    (∀ G : Geom, plot_district order (.gsingle G) fact =
      plot_district order (.gseries [G]) fact) ∧
    (∀ gs : List Geom, plot_district order (.gseries gs) fact =
      plot_district order (.glist gs) fact) ∧
    (∀ vs, (plot_district order (.gsingle (.polygon vs)) fact).drawn =
      [.polygon vs]) ∧
    (∀ ps,
      (plot_district order (.gsingle (.multiPolygon ps)) fact).drawn =
        [.multiPolygon ps]) :=
  ⟨rfl, rfl, fun _ => rfl, fun _ => rfl, fun _ => rfl, fun _ => rfl⟩

/-- Counterexample to C8 as stated: the rendered title for the first
district is exactly "1st Congressional Session"; neither the district's
date-range label nor even its years occur in it, so the title does not
combine the ordinal with the date-range label. -/
theorem slide_title_C8_counterexample :
    (plot_district "1st" (.glist [.polygon []])
        "A fact.").title =
      some ("1st Congressional Session", 16) ∧
    occursIn "March 4, 1789 to March 3, 1791"
      "1st Congressional Session" = false ∧
    occursIn "1789" "1st Congressional Session" = false ∧
    occursIn "1791" "1st Congressional Session" = false := by
  exact ⟨rfl, by decide, by decide, by decide⟩

/-- Claim C8, amended: for every rendered slide the title is the ordinal
label followed by " Congressional Session" (the date range does not appear
in the title), and the fact is placed as a word-wrapped, centered caption
near the bottom of the canvas, below the map area. -/
theorem slide_title_caption_C8_amended (order fact : String)
    (gs : List Geom) :
    (plot_district order (.glist gs) fact).title =
      some (order ++ " Congressional Session", 16) ∧
    (plot_district order (.glist gs) fact).caption =
      some (mkCaption fact) ∧
    (mkCaption fact).text = fact ∧
    (mkCaption fact).wrap = true ∧
    (mkCaption fact).ha = "center" ∧
    (mkCaption fact).xPercent = 50 ∧
    (mkCaption fact).yPercent = 2 :=
  ⟨rfl, rfl, rfl, rfl, rfl, rfl, rfl⟩
